import Mathlib

/-!
Shallow embedding of the `@enc/core` library (files `src/generate.ts`,
`src/encrypt.ts`, `src/sign.ts`, `src/export.ts`).

The library is a validation layer over an external cryptographic engine
(`crypto.subtle`).  The engine itself is out of scope: every delegation to
`crypto.subtle.*` is reified as a record holding exactly the arguments the
source passes to the engine, and every locally thrown `Error` becomes
`Except.error` carrying the source's message string.  JavaScript string
payloads are byte lists (`TextEncoder` is UTF-8 encoding), JS objects with
optional fields are structures with `Option` fields, and the object spread
`{ ...a, ...b }` is field-wise `Option.orElse` with the overriding object
first.
-/

deriving instance DecidableEq for Except

namespace Enc

/-- The WebCrypto `KeyUsage` string enumeration. -/
inductive KeyUsage where
  | encrypt | decrypt | sign | verify
  | deriveKey | deriveBits | wrapKey | unwrapKey
deriving DecidableEq, Repr

/-- A WebCrypto algorithm descriptor: the `name` field plus the union of all
family-specific fields that appear in the source (`EcKeyGenParams`,
`RsaHashedKeyGenParams`, `HmacKeyGenParams`, `AesKeyGenParams`, and the
per-operation parameter objects).  Absent JS fields are `none`. -/
structure Algorithm where
  name : String
  namedCurve : Option String := none
  hash : Option String := none
  modulusLength : Option Nat := none
  publicExponent : Option (List Nat) := none
  length : Option Nat := none
  counter : Option (List Nat) := none
  iv : Option (List Nat) := none
  label : Option (List Nat) := none
  additionalData : Option (List Nat) := none
  tagLength : Option Nat := none
  saltLength : Option Nat := none
deriving DecidableEq, Repr

/-- A WebCrypto `CryptoKey` handle: the fields the library reads
(`algorithm`, `extractable`, `usages`). -/
structure CryptoKey where
  algorithm : Algorithm
  extractable : Bool
  usages : List KeyUsage
deriving DecidableEq, Repr

/-- `KeyGenParams` from `src/generate.ts`: an algorithm descriptor,
an extractability flag and a requested usage list. -/
structure KeyGenParams where
  algorithm : Algorithm
  extractable : Bool
  keyUsages : List KeyUsage
deriving DecidableEq, Repr

/-- `ecKey` from `src/generate.ts`.  The TS `purpose` parameter has type
`"Signing" | "Encrypting"`; it is kept as a string and compared with
`===` exactly as the source does. -/
def ecKey (purpose : String) (curve : String := "P-256") : KeyGenParams :=
  { algorithm :=
      { name := if purpose == ("Signing") then "ECDSA" else "ECDH"
        namedCurve := some curve }
    extractable := true
    keyUsages :=
      if purpose == ("Signing") then [.sign, .verify]
      else [.deriveKey, .deriveBits] }

/-- `rsaKey` from `src/generate.ts`; `publicExponent` is the byte array
`[0x01, 0x00, 0x01]`. -/
def rsaKey (purpose : String) (length : Nat := 2048)
    (hash : String := "SHA-256") : KeyGenParams :=
  { algorithm :=
      { name := if purpose == ("Signing") then "RSA-PSS" else "RSA-OAEP"
        hash := some hash
        modulusLength := some length
        publicExponent := some [0x01, 0x00, 0x01] }
    extractable := true
    keyUsages :=
      if purpose == ("Signing") then [.sign, .verify]
      else [.encrypt, .decrypt, .wrapKey, .unwrapKey] }

/-- `hmacKey` from `src/generate.ts`; the optional `length` is forwarded
as-is (absent when not given). -/
def hmacKey (hash : String := "SHA-256") (length : Option Nat := none) :
    KeyGenParams :=
  { algorithm := { name := "HMAC", hash := some hash, length := length }
    extractable := true
    keyUsages := [.sign, .verify] }

/-- `aesKey` from `src/generate.ts`.  The TS `purpose` is the four-way union
`"Wrapping" | "Fixed length encryption" | "Variable length encryption" |
"Integrity protection"`, compared with `===` as in the source's nested
conditional. -/
def aesKey (purpose : String) (length : Nat := 256) : KeyGenParams :=
  { algorithm :=
      { name :=
          if purpose == ("Wrapping") then "AES-KW"
          else if purpose == ("Integrity protection") then "AES-GCM"
          else if purpose == ("Fixed length encryption") then "AES-CBC"
          else "AES-CTR"
        length := some length }
    extractable := true
    keyUsages :=
      if purpose == ("Wrapping") then [.wrapKey, .unwrapKey]
      else [.encrypt, .decrypt] }

/-- `edKey` from `src/generate.ts`. -/
def edKey : KeyGenParams :=
  { algorithm := { name := "Ed25519" }
    extractable := true
    keyUsages := [.sign, .verify] }

/-- `xKey` from `src/generate.ts`. -/
def xKey : KeyGenParams :=
  { algorithm := { name := "X25519" }
    extractable := true
    keyUsages := [.deriveKey, .deriveBits] }

/-- The arguments `generateKey` passes to `crypto.subtle.generateKey`. -/
structure GenerateCall where
  algorithm : Algorithm
  extractable : Bool
  keyUsages : List KeyUsage
deriving DecidableEq, Repr

/-- `generateKey` from `src/generate.ts`: forwards the options to the engine,
with the optional second parameter overriding `options.extractable` when
defined (`extractable !== undefined ? extractable : options.extractable`). -/
def generateKey (options : KeyGenParams) (extractable : Option Bool := none) :
    GenerateCall :=
  { algorithm := options.algorithm
    extractable := match extractable with
      | some e => e
      | none => options.extractable
    keyUsages := options.keyUsages }

/-- A `string | ArrayBuffer` payload. -/
inductive Payload where
  | str (s : String)
  | buf (b : List Nat)
deriving DecidableEq, Repr

/-- The UTF-8 byte sequence of a single code point. -/
def utf8EncodeChar (n : Nat) : List Nat :=
  if n < 0x80 then [n]
  else if n < 0x800 then [0xC0 ||| (n >>> 6), 0x80 ||| (n &&& 0x3F)]
  else if n < 0x10000 then
    [0xE0 ||| (n >>> 12), 0x80 ||| ((n >>> 6) &&& 0x3F), 0x80 ||| (n &&& 0x3F)]
  else
    [0xF0 ||| (n >>> 18), 0x80 ||| ((n >>> 12) &&& 0x3F),
     0x80 ||| ((n >>> 6) &&& 0x3F), 0x80 ||| (n &&& 0x3F)]

/-- `new TextEncoder().encode(s)`: the UTF-8 bytes of `s`. -/
def textEncode (s : String) : List Nat :=
  (s.data.map (fun c => utf8EncodeChar c.toNat)).flatten

/-- `data instanceof ArrayBuffer ? data : new TextEncoder().encode(data)`,
the payload normalization shared by all four dispatcher operations. -/
def normalizePayload : Payload → List Nat
  | .buf b => b
  | .str s => textEncode s

/-- `AlgoOptions` from `src/encrypt.ts`:
`Omit<RsaOaepParams | AesCtrParams | AesCbcParams | AesGcmParams, "name">`.
The `Omit` guarantees the options object carries no `name` field. -/
structure EncryptAlgoOptions where
  label : Option (List Nat) := none
  counter : Option (List Nat) := none
  length : Option Nat := none
  iv : Option (List Nat) := none
  additionalData : Option (List Nat) := none
  tagLength : Option Nat := none
deriving DecidableEq, Repr

/-- The spread `{ ...key.algorithm, ...options }` in `encrypt`/`decrypt`:
fields present in `options` override, `name` is untouched because the
options type omits it. -/
def mergeEncryptOptions (a : Algorithm) :
    Option EncryptAlgoOptions → Algorithm
  | none => a
  | some o =>
    { a with
      label := o.label.orElse (fun _ => a.label)
      counter := o.counter.orElse (fun _ => a.counter)
      length := o.length.orElse (fun _ => a.length)
      iv := o.iv.orElse (fun _ => a.iv)
      additionalData := o.additionalData.orElse (fun _ => a.additionalData)
      tagLength := o.tagLength.orElse (fun _ => a.tagLength) }

/-- `AlgoOptions` from `src/sign.ts`:
`Omit<RsaPssParams | EcdsaParams, "name">`. -/
structure SignAlgoOptions where
  saltLength : Option Nat := none
  hash : Option String := none
deriving DecidableEq, Repr

/-- The spread `{ ...key.algorithm, ...options }` in `sign`/`verify`. -/
def mergeSignOptions (a : Algorithm) : Option SignAlgoOptions → Algorithm
  | none => a
  | some o =>
    { a with
      saltLength := o.saltLength.orElse (fun _ => a.saltLength)
      hash := o.hash.orElse (fun _ => a.hash) }

/-- The arguments passed to `crypto.subtle.encrypt`, `.decrypt` and
`.sign`. -/
structure SubtleCall where
  algorithm : Algorithm
  key : CryptoKey
  data : List Nat
deriving DecidableEq, Repr

/-- `encrypt` from `src/encrypt.ts`.  A locally thrown `Error` is
`Except.error` with the source's message; success is the reified
`crypto.subtle.encrypt` call. -/
def encrypt (data : Payload) (key : CryptoKey)
    (options : Option EncryptAlgoOptions := none) :
    Except String SubtleCall :=
  let algorithm := mergeEncryptOptions key.algorithm options
  let allowedAlgorithms : List String :=
    ["RSA-OAEP", "AES-CTR", "AES-CBC", "AES-GCM"]
  if !(allowedAlgorithms.contains key.algorithm.name) then
    .error ("Unsupported algorithm")
  else if !(key.usages.contains .encrypt) then
    .error ("Key does not support encryption")
  else
    .ok { algorithm := algorithm, key := key, data := normalizePayload data }

/-- `decrypt` from `src/encrypt.ts`. -/
def decrypt (data : Payload) (key : CryptoKey)
    (options : Option EncryptAlgoOptions := none) :
    Except String SubtleCall :=
  let algorithm := mergeEncryptOptions key.algorithm options
  let allowedAlgorithms : List String :=
    ["RSA-OAEP", "AES-CTR", "AES-CBC", "AES-GCM"]
  if !(allowedAlgorithms.contains key.algorithm.name) then
    .error ("Unsupported algorithm")
  else if !(key.usages.contains .decrypt) then
    .error ("Key does not support decryption")
  else
    .ok { algorithm := algorithm, key := key, data := normalizePayload data }

/-- `sign` from `src/sign.ts`. -/
def sign (data : Payload) (key : CryptoKey)
    (options : Option SignAlgoOptions := none) :
    Except String SubtleCall :=
  let algorithm := mergeSignOptions key.algorithm options
  let allowedAlgorithms : List String :=
    ["RSA-PSS", "ECDSA", "HMAC", "Ed25519"]
  if !(allowedAlgorithms.contains key.algorithm.name) then
    .error ("Unsupported algorithm")
  else if !(key.usages.contains .sign) then
    .error ("Key does not support signing")
  else
    .ok { algorithm := algorithm, key := key, data := normalizePayload data }

/-- The arguments passed to `crypto.subtle.verify`. -/
structure VerifyCall where
  algorithm : Algorithm
  key : CryptoKey
  signature : List Nat
  data : List Nat
deriving DecidableEq, Repr

/-- `verify` from `src/sign.ts`. -/
def verify (data : Payload) (key : CryptoKey) (signature : List Nat)
    (options : Option SignAlgoOptions := none) :
    Except String VerifyCall :=
  let algorithm := mergeSignOptions key.algorithm options
  let allowedAlgorithms : List String :=
    ["RSA-PSS", "ECDSA", "HMAC", "Ed25519"]
  if !(allowedAlgorithms.contains key.algorithm.name) then
    .error ("Unsupported algorithm")
  else if !(key.usages.contains .verify) then
    .error ("Key does not support verifying")
  else
    .ok { algorithm := algorithm, key := key, signature := signature
          data := normalizePayload data }

/-- The arguments passed to `crypto.subtle.exportKey`.  Both branches of the
source's `format === "jwk"` conditional pass `(format, key)` unchanged. -/
structure ExportCall where
  format : String
  key : CryptoKey
deriving DecidableEq, Repr

/-- `exportKey` from `src/export.ts`. -/
def exportKey (format : String) (key : CryptoKey) :
    Except String ExportCall :=
  if !key.extractable then
    .error ("Key does not support exporting")
  else
    .ok { format := format, key := key }

/-- Key material handed to `importKey`: a `JsonWebKey` (kept opaque as its
JSON text) or an `ArrayBuffer`. -/
inductive KeyMaterial where
  | jwk (j : String)
  | buf (b : List Nat)
deriving DecidableEq, Repr

/-- The arguments passed to `crypto.subtle.importKey`; both branches of the
source's `format === "jwk"` conditional pass the same five arguments. -/
structure ImportCall where
  format : String
  keyData : KeyMaterial
  algorithm : Algorithm
  extractable : Bool
  keyUsages : List KeyUsage
deriving DecidableEq, Repr

/-- `importKey` from `src/export.ts`.  The TS `type` parameter has the
built-in `KeyType` type `"public" | "private" | "secret"`; it is kept as a
string and compared with `===` exactly as the source's filter callback
does. -/
def importKey (format : String) («type» : String) (key : KeyMaterial)
    (options : KeyGenParams) (extractable : Option Bool := none) :
    ImportCall :=
  let keyUsages := options.keyUsages.filter fun usage =>
    if «type» == ("public") &&
        (usage == .sign || usage == .unwrapKey || usage == .decrypt) then
      false
    else if «type» == ("private") &&
        (usage == .verify || usage == .wrapKey || usage == .encrypt) then
      false
    else
      true
  { format := format
    keyData := key
    algorithm := options.algorithm
    extractable := match extractable with
      | some e => e
      | none => options.extractable
    keyUsages := keyUsages }

/-! ## Helper lemmas and sample keys -/

/-- `List.contains` agrees with membership. -/
theorem contains_iff_mem {α : Type} [BEq α] [LawfulBEq α]
    (l : List α) (a : α) : l.contains a = true ↔ a ∈ l := by
  simp [List.contains]

/-- `List.contains` returning `false` agrees with non-membership. -/
theorem contains_eq_false_iff {α : Type} [BEq α] [LawfulBEq α]
    (l : List α) (a : α) : l.contains a = false ↔ a ∉ l := by
  simp [List.contains]

/-- The common validation skeleton of the four dispatcher operations: the
allow-list guard, then the usage guard, then the reified engine call. -/
theorem dispatch_shape {α : Type} (b1 b2 : Bool) (m : String) (v : α)
    (r : Except String α)
    (hr : r = if (!b1) then Except.error ("Unsupported algorithm")
          else if (!b2) then Except.error m else Except.ok v)
    (hm : m ≠ "Unsupported algorithm") :
    ((r = Except.error ("Unsupported algorithm")) ↔ b1 = false) ∧
    (b1 = true → ((r = Except.error m) ↔ b2 = false)) ∧
    ((b1 = false ∨ b2 = false) → ∃ e, r = Except.error e) ∧
    (∀ w, r = Except.ok w → w = v) := by
  subst hr
  cases b1 <;> cases b2 <;> simp_all

/-- `encrypt` unfolded to the validation skeleton. -/
theorem encrypt_shape (d : Payload) (k : CryptoKey)
    (o : Option EncryptAlgoOptions) :
    encrypt d k o =
      if !((["RSA-OAEP", "AES-CTR", "AES-CBC", "AES-GCM"] : List String).contains
            k.algorithm.name) then
        Except.error ("Unsupported algorithm")
      else if !(k.usages.contains .encrypt) then
        Except.error ("Key does not support encryption")
      else
        Except.ok { algorithm := mergeEncryptOptions k.algorithm o, key := k
                    data := normalizePayload d } := rfl

/-- `decrypt` unfolded to the validation skeleton. -/
theorem decrypt_shape (d : Payload) (k : CryptoKey)
    (o : Option EncryptAlgoOptions) :
    decrypt d k o =
      if !((["RSA-OAEP", "AES-CTR", "AES-CBC", "AES-GCM"] : List String).contains
            k.algorithm.name) then
        Except.error ("Unsupported algorithm")
      else if !(k.usages.contains .decrypt) then
        Except.error ("Key does not support decryption")
      else
        Except.ok { algorithm := mergeEncryptOptions k.algorithm o, key := k
                    data := normalizePayload d } := rfl

/-- `sign` unfolded to the validation skeleton. -/
theorem sign_shape (d : Payload) (k : CryptoKey)
    (o : Option SignAlgoOptions) :
    sign d k o =
      if !((["RSA-PSS", "ECDSA", "HMAC", "Ed25519"] : List String).contains
            k.algorithm.name) then
        Except.error ("Unsupported algorithm")
      else if !(k.usages.contains .sign) then
        Except.error ("Key does not support signing")
      else
        Except.ok { algorithm := mergeSignOptions k.algorithm o, key := k
                    data := normalizePayload d } := rfl

/-- `verify` unfolded to the validation skeleton. -/
theorem verify_shape (d : Payload) (k : CryptoKey) (sg : List Nat)
    (o : Option SignAlgoOptions) :
    verify d k sg o =
      if !((["RSA-PSS", "ECDSA", "HMAC", "Ed25519"] : List String).contains
            k.algorithm.name) then
        Except.error ("Unsupported algorithm")
      else if !(k.usages.contains .verify) then
        Except.error ("Key does not support verifying")
      else
        Except.ok { algorithm := mergeSignOptions k.algorithm o, key := k
                    signature := sg, data := normalizePayload d } := rfl

/-- Merging encrypt/decrypt options never touches the `name` field. -/
theorem mergeEncryptOptions_name (a : Algorithm)
    (o : Option EncryptAlgoOptions) :
    (mergeEncryptOptions a o).name = a.name := by
  cases o <;> rfl

/-- Merging sign/verify options never touches the `name` field. -/
theorem mergeSignOptions_name (a : Algorithm) (o : Option SignAlgoOptions) :
    (mergeSignOptions a o).name = a.name := by
  cases o <;> rfl

/-- A concrete HMAC key as the engine would realize it from `hmacKey`. -/
def hmacSampleKey : CryptoKey :=
  { algorithm := { name := "HMAC", hash := some ("SHA-256") }
    extractable := true
    usages := [.sign, .verify] }

/-- A concrete AES-KW wrapping key as realized from `aesKey ("Wrapping")`. -/
def kwSampleKey : CryptoKey :=
  { algorithm := { name := "AES-KW", length := some 256 }
    extractable := true
    usages := [.wrapKey, .unwrapKey] }

/-- A concrete AES-GCM key with both encryption usages. -/
def gcmSampleKey : CryptoKey :=
  { algorithm := { name := "AES-GCM", length := some 256 }
    extractable := true
    usages := [.encrypt, .decrypt] }

/-- A concrete AES-GCM key whose realized usage set is empty. -/
def gcmNoUsageKey : CryptoKey :=
  { algorithm := { name := "AES-GCM", length := some 256 }
    extractable := true
    usages := [] }

/-- A concrete HMAC key created with `extractable = false`. -/
def lockedSampleKey : CryptoKey :=
  { algorithm := { name := "HMAC", hash := some ("SHA-256") }
    extractable := false
    usages := [.sign, .verify] }

/-! ## Claim theorems -/

/-- C1: every purpose/family combination of the profile builders produces
exactly the table's algorithm name and usage list (EC/Signing → ECDSA with
sign+verify, EC/Encrypting → ECDH with deriveKey+deriveBits, RSA/Signing →
RSA-PSS, RSA/Encrypting → RSA-OAEP with encrypt+decrypt+wrapKey+unwrapKey,
AES/Wrapping → AES-KW, AES/Integrity protection → AES-GCM, AES/Fixed length
encryption → AES-CBC, AES/Variable length encryption → AES-CTR, HMAC,
Ed25519, X25519), and every profile has `extractable = true`, for all
tunable parameters. -/
theorem profile_table_matches :
    (∀ curve : String,
      (ecKey ("Signing") curve).algorithm.name = "ECDSA" ∧
      (ecKey ("Signing") curve).keyUsages = [.sign, .verify] ∧
      (ecKey ("Signing") curve).extractable = true ∧
      (ecKey ("Encrypting") curve).algorithm.name = "ECDH" ∧
      (ecKey ("Encrypting") curve).keyUsages = [.deriveKey, .deriveBits] ∧
      (ecKey ("Encrypting") curve).extractable = true) ∧
    (∀ (len : Nat) (hash : String),
      (rsaKey ("Signing") len hash).algorithm.name = "RSA-PSS" ∧
      (rsaKey ("Signing") len hash).keyUsages = [.sign, .verify] ∧
      (rsaKey ("Signing") len hash).extractable = true ∧
      (rsaKey ("Encrypting") len hash).algorithm.name = "RSA-OAEP" ∧
      (rsaKey ("Encrypting") len hash).keyUsages =
        [.encrypt, .decrypt, .wrapKey, .unwrapKey] ∧
      (rsaKey ("Encrypting") len hash).extractable = true) ∧
    (∀ len : Nat,
      (aesKey ("Wrapping") len).algorithm.name = "AES-KW" ∧
      (aesKey ("Wrapping") len).keyUsages = [.wrapKey, .unwrapKey] ∧
      (aesKey ("Wrapping") len).extractable = true ∧
      (aesKey ("Integrity protection") len).algorithm.name = "AES-GCM" ∧
      (aesKey ("Integrity protection") len).keyUsages = [.encrypt, .decrypt] ∧
      (aesKey ("Integrity protection") len).extractable = true ∧
      (aesKey ("Fixed length encryption") len).algorithm.name = "AES-CBC" ∧
      (aesKey ("Fixed length encryption") len).keyUsages =
        [.encrypt, .decrypt] ∧
      (aesKey ("Fixed length encryption") len).extractable = true ∧
      (aesKey ("Variable length encryption") len).algorithm.name =
        "AES-CTR" ∧
      (aesKey ("Variable length encryption") len).keyUsages =
        [.encrypt, .decrypt] ∧
      (aesKey ("Variable length encryption") len).extractable = true) ∧
    (∀ (hash : String) (len : Option Nat),
      (hmacKey hash len).algorithm.name = "HMAC" ∧
      (hmacKey hash len).keyUsages = [.sign, .verify] ∧
      (hmacKey hash len).extractable = true) ∧
    (edKey.algorithm.name = "Ed25519" ∧
      edKey.keyUsages = [.sign, .verify] ∧
      edKey.extractable = true) ∧
    (xKey.algorithm.name = "X25519" ∧
      xKey.keyUsages = [.deriveKey, .deriveBits] ∧
      xKey.extractable = true) :=
  ⟨fun _ => ⟨rfl, rfl, rfl, rfl, rfl, rfl⟩,
   fun _ _ => ⟨rfl, rfl, rfl, rfl, rfl, rfl⟩,
   fun _ => ⟨rfl, rfl, rfl, rfl, rfl, rfl, rfl, rfl, rfl, rfl, rfl, rfl⟩,
   fun _ _ => ⟨rfl, rfl, rfl⟩,
   ⟨rfl, rfl, rfl⟩,
   ⟨rfl, rfl, rfl⟩⟩

/-- C1 witness: the EC/Signing row evaluated at the default curve. -/
theorem profile_table_matches_witness :
    (ecKey ("Signing") ("P-256")).algorithm.name = "ECDSA" :=
  (profile_table_matches.1 ("P-256")).1

/-- C2: each dispatcher operation fails with the `Unsupported algorithm`
error exactly when the key's own algorithm name is outside the operation's
fixed allow-list ({RSA-OAEP, AES-CTR, AES-CBC, AES-GCM} for
encrypt/decrypt, {RSA-PSS, ECDSA, HMAC, Ed25519} for sign/verify). -/
theorem dispatch_unsupported_algorithm_iff (d : Payload) (k : CryptoKey)
    (o : Option EncryptAlgoOptions) (os : Option SignAlgoOptions)
    (sg : List Nat) :
    (encrypt d k o = Except.error ("Unsupported algorithm") ↔
      k.algorithm.name ∉
        (["RSA-OAEP", "AES-CTR", "AES-CBC", "AES-GCM"] : List String)) ∧
    (decrypt d k o = Except.error ("Unsupported algorithm") ↔
      k.algorithm.name ∉
        (["RSA-OAEP", "AES-CTR", "AES-CBC", "AES-GCM"] : List String)) ∧
    (sign d k os = Except.error ("Unsupported algorithm") ↔
      k.algorithm.name ∉
        (["RSA-PSS", "ECDSA", "HMAC", "Ed25519"] : List String)) ∧
    (verify d k sg os = Except.error ("Unsupported algorithm") ↔
      k.algorithm.name ∉
        (["RSA-PSS", "ECDSA", "HMAC", "Ed25519"] : List String)) :=
  ⟨((dispatch_shape _ _ _ _ _ (encrypt_shape d k o) (by decide)).1).trans
      (contains_eq_false_iff _ _),
   ((dispatch_shape _ _ _ _ _ (decrypt_shape d k o) (by decide)).1).trans
      (contains_eq_false_iff _ _),
   ((dispatch_shape _ _ _ _ _ (sign_shape d k os) (by decide)).1).trans
      (contains_eq_false_iff _ _),
   ((dispatch_shape _ _ _ _ _ (verify_shape d k sg os) (by decide)).1).trans
      (contains_eq_false_iff _ _)⟩

/-- C2 witness: encrypting with an HMAC key, and with an AES-KW wrapping
key, fails with the `Unsupported algorithm` error. -/
theorem dispatch_unsupported_algorithm_iff_witness :
    encrypt (.buf [1, 2]) hmacSampleKey none =
      Except.error ("Unsupported algorithm") ∧
    encrypt (.buf [1, 2]) kwSampleKey none =
      Except.error ("Unsupported algorithm") :=
  ⟨(dispatch_unsupported_algorithm_iff (.buf [1, 2]) hmacSampleKey none
      none []).1.mpr (by decide),
   (dispatch_unsupported_algorithm_iff (.buf [1, 2]) kwSampleKey none
      none []).1.mpr (by decide)⟩

/-- C3: for keys whose algorithm name passes the operation's allow-list,
each dispatcher fails with its usage-denied error exactly when the
operation's usage tag is missing from the key's realized usage set; and the
algorithm-name check comes first: when the name is outside the allow-list
the error is `Unsupported algorithm` even if the usage is also missing. -/
theorem dispatch_usage_denied_iff (d : Payload) (k : CryptoKey)
    (o : Option EncryptAlgoOptions) (os : Option SignAlgoOptions)
    (sg : List Nat) :
    (k.algorithm.name ∈
        (["RSA-OAEP", "AES-CTR", "AES-CBC", "AES-GCM"] : List String) →
      (encrypt d k o = Except.error ("Key does not support encryption") ↔
        KeyUsage.encrypt ∉ k.usages)) ∧
    (k.algorithm.name ∈
        (["RSA-OAEP", "AES-CTR", "AES-CBC", "AES-GCM"] : List String) →
      (decrypt d k o = Except.error ("Key does not support decryption") ↔
        KeyUsage.decrypt ∉ k.usages)) ∧
    (k.algorithm.name ∈
        (["RSA-PSS", "ECDSA", "HMAC", "Ed25519"] : List String) →
      (sign d k os = Except.error ("Key does not support signing") ↔
        KeyUsage.sign ∉ k.usages)) ∧
    (k.algorithm.name ∈
        (["RSA-PSS", "ECDSA", "HMAC", "Ed25519"] : List String) →
      (verify d k sg os = Except.error ("Key does not support verifying") ↔
        KeyUsage.verify ∉ k.usages)) ∧
    (k.algorithm.name ∉
        (["RSA-OAEP", "AES-CTR", "AES-CBC", "AES-GCM"] : List String) ∧
        KeyUsage.encrypt ∉ k.usages →
      encrypt d k o = Except.error ("Unsupported algorithm")) ∧
    (k.algorithm.name ∉
        (["RSA-PSS", "ECDSA", "HMAC", "Ed25519"] : List String) ∧
        KeyUsage.sign ∉ k.usages →
      sign d k os = Except.error ("Unsupported algorithm")) :=
  ⟨fun hm =>
    ((dispatch_shape _ _ _ _ _ (encrypt_shape d k o) (by decide)).2.1
        ((contains_iff_mem _ _).mpr hm)).trans (contains_eq_false_iff _ _),
   fun hm =>
    ((dispatch_shape _ _ _ _ _ (decrypt_shape d k o) (by decide)).2.1
        ((contains_iff_mem _ _).mpr hm)).trans (contains_eq_false_iff _ _),
   fun hm =>
    ((dispatch_shape _ _ _ _ _ (sign_shape d k os) (by decide)).2.1
        ((contains_iff_mem _ _).mpr hm)).trans (contains_eq_false_iff _ _),
   fun hm =>
    ((dispatch_shape _ _ _ _ _ (verify_shape d k sg os) (by decide)).2.1
        ((contains_iff_mem _ _).mpr hm)).trans (contains_eq_false_iff _ _),
   fun hm =>
    (dispatch_shape _ _ _ _ _ (encrypt_shape d k o) (by decide)).1.mpr
      ((contains_eq_false_iff _ _).mpr hm.1),
   fun hm =>
    (dispatch_shape _ _ _ _ _ (sign_shape d k os) (by decide)).1.mpr
      ((contains_eq_false_iff _ _).mpr hm.1)⟩

/-- C3 witness: an AES-GCM key with an empty realized usage set is rejected
by `encrypt` with the usage-denied error. -/
theorem dispatch_usage_denied_iff_witness :
    encrypt (.buf []) gcmNoUsageKey none =
      Except.error ("Key does not support encryption") :=
  ((dispatch_usage_denied_iff (.buf []) gcmNoUsageKey none none []).1
      (by decide)).mpr (by decide)

/-- C4: `importKey` filters the profile's requested usages by role before
delegating: for the public role exactly sign, unwrapKey and decrypt are
removed; for the private role exactly verify, wrapKey and encrypt are
removed; dropped usages never cause an error (the result is still a plain
engine call).  In particular a public import of {sign, verify, encrypt}
realizes {verify, encrypt} and a private import of it realizes {sign}. -/
theorem importKey_role_filtering :
    (∀ (format : String) (m : KeyMaterial) (opts : KeyGenParams)
        (e : Option Bool) (u : KeyUsage),
      u ∈ (importKey format ("public") m opts e).keyUsages ↔
        u ∈ opts.keyUsages ∧
          u ∉ ([.sign, .unwrapKey, .decrypt] : List KeyUsage)) ∧
    (∀ (format : String) (m : KeyMaterial) (opts : KeyGenParams)
        (e : Option Bool) (u : KeyUsage),
      u ∈ (importKey format ("private") m opts e).keyUsages ↔
        u ∈ opts.keyUsages ∧
          u ∉ ([.verify, .wrapKey, .encrypt] : List KeyUsage)) ∧
    ((importKey ("jwk") ("public") (.buf [])
        { algorithm := { name := "RSA-PSS" }, extractable := true
          keyUsages := [.sign, .verify, .encrypt] } none).keyUsages =
      [.verify, .encrypt]) ∧
    ((importKey ("jwk") ("private") (.buf [])
        { algorithm := { name := "RSA-PSS" }, extractable := true
          keyUsages := [.sign, .verify, .encrypt] } none).keyUsages =
      [.sign]) := by
  refine ⟨?_, ?_, by decide, by decide⟩ <;>
    · intro format m opts e u
      simp only [importKey]
      rw [List.mem_filter]
      cases u <;> simp

/-- C4 witness: the public-role instance of the filtering law at the
usage `sign` on the profile requesting {sign, verify, encrypt}. -/
theorem importKey_role_filtering_witness :
    ¬(KeyUsage.sign ∈ (importKey ("jwk") ("public") (.buf [])
        { algorithm := { name := "RSA-PSS" }, extractable := true
          keyUsages := [.sign, .verify, .encrypt] } none).keyUsages) :=
  fun h =>
    (((importKey_role_filtering.1 ("jwk") (.buf [])
        { algorithm := { name := "RSA-PSS" }, extractable := true
          keyUsages := [.sign, .verify, .encrypt] } none
        KeyUsage.sign).mp h).2) (by decide)

/-- C5: `exportKey` on a non-extractable key fails with the not-extractable
error and produces no engine call; on an extractable key it delegates the
format and key to the engine unchanged with no error of its own. -/
theorem exportKey_extractable_gate (format : String) (key : CryptoKey) :
    (key.extractable = false →
      exportKey format key = Except.error ("Key does not support exporting")) ∧
    (key.extractable = true →
      exportKey format key = Except.ok { format := format, key := key }) := by
  constructor <;> intro h <;> simp [exportKey, h]

/-- C5 witness: exporting the locked sample key fails for both a structured
and a binary format, and exporting an extractable key delegates. -/
theorem exportKey_extractable_gate_witness :
    exportKey ("jwk") lockedSampleKey =
      Except.error ("Key does not support exporting") ∧
    exportKey ("raw") lockedSampleKey =
      Except.error ("Key does not support exporting") ∧
    exportKey ("raw") gcmSampleKey =
      Except.ok { format := "raw", key := gcmSampleKey } :=
  ⟨(exportKey_extractable_gate ("jwk") lockedSampleKey).1 rfl,
   (exportKey_extractable_gate ("raw") lockedSampleKey).1 rfl,
   (exportKey_extractable_gate ("raw") gcmSampleKey).2 rfl⟩

/-- C6: whenever a dispatcher's validation fails — algorithm name outside
the allow-list or required usage missing — the operation returns a local
error and no engine call is ever produced. -/
theorem dispatch_validation_before_engine (d : Payload) (k : CryptoKey)
    (o : Option EncryptAlgoOptions) (os : Option SignAlgoOptions)
    (sg : List Nat) :
    (k.algorithm.name ∉
          (["RSA-OAEP", "AES-CTR", "AES-CBC", "AES-GCM"] : List String) ∨
        KeyUsage.encrypt ∉ k.usages →
      (∃ e, encrypt d k o = Except.error e) ∧
        ∀ c, encrypt d k o ≠ Except.ok c) ∧
    (k.algorithm.name ∉
          (["RSA-OAEP", "AES-CTR", "AES-CBC", "AES-GCM"] : List String) ∨
        KeyUsage.decrypt ∉ k.usages →
      (∃ e, decrypt d k o = Except.error e) ∧
        ∀ c, decrypt d k o ≠ Except.ok c) ∧
    (k.algorithm.name ∉
          (["RSA-PSS", "ECDSA", "HMAC", "Ed25519"] : List String) ∨
        KeyUsage.sign ∉ k.usages →
      (∃ e, sign d k os = Except.error e) ∧
        ∀ c, sign d k os ≠ Except.ok c) ∧
    (k.algorithm.name ∉
          (["RSA-PSS", "ECDSA", "HMAC", "Ed25519"] : List String) ∨
        KeyUsage.verify ∉ k.usages →
      (∃ e, verify d k sg os = Except.error e) ∧
        ∀ c, verify d k sg os ≠ Except.ok c) := by
  refine ⟨fun h => ?_, fun h => ?_, fun h => ?_, fun h => ?_⟩
  · obtain ⟨e, he⟩ :=
      (dispatch_shape _ _ _ _ _ (encrypt_shape d k o) (by decide)).2.2.1
        (h.imp (contains_eq_false_iff _ _).mpr (contains_eq_false_iff _ _).mpr)
    exact ⟨⟨e, he⟩, fun c hc => by rw [he] at hc; exact Except.noConfusion hc⟩
  · obtain ⟨e, he⟩ :=
      (dispatch_shape _ _ _ _ _ (decrypt_shape d k o) (by decide)).2.2.1
        (h.imp (contains_eq_false_iff _ _).mpr (contains_eq_false_iff _ _).mpr)
    exact ⟨⟨e, he⟩, fun c hc => by rw [he] at hc; exact Except.noConfusion hc⟩
  · obtain ⟨e, he⟩ :=
      (dispatch_shape _ _ _ _ _ (sign_shape d k os) (by decide)).2.2.1
        (h.imp (contains_eq_false_iff _ _).mpr (contains_eq_false_iff _ _).mpr)
    exact ⟨⟨e, he⟩, fun c hc => by rw [he] at hc; exact Except.noConfusion hc⟩
  · obtain ⟨e, he⟩ :=
      (dispatch_shape _ _ _ _ _ (verify_shape d k sg os) (by decide)).2.2.1
        (h.imp (contains_eq_false_iff _ _).mpr (contains_eq_false_iff _ _).mpr)
    exact ⟨⟨e, he⟩, fun c hc => by rw [he] at hc; exact Except.noConfusion hc⟩

/-- C6 witness: signing with the wrapping key (name outside the sign
allow-list) yields an error and no engine call. -/
theorem dispatch_validation_before_engine_witness :
    (∃ e, sign (.buf []) kwSampleKey none = Except.error e) ∧
      ∀ c, sign (.buf []) kwSampleKey none ≠ Except.ok c :=
  (dispatch_validation_before_engine (.buf []) kwSampleKey none none []).2.2.1
    (Or.inl (by decide))

/-- C7: `generateKey` passes the profile's algorithm descriptor,
extractability flag and usage list verbatim to the engine when no override
is supplied. -/
theorem generateKey_verbatim (options : KeyGenParams) :
    generateKey options none =
      { algorithm := options.algorithm
        extractable := options.extractable
        keyUsages := options.keyUsages } := rfl

/-- C7 witness: the RSA encryption profile is forwarded verbatim. -/
theorem generateKey_verbatim_witness :
    generateKey (rsaKey ("Encrypting")) none =
      { algorithm := (rsaKey ("Encrypting")).algorithm
        extractable := (rsaKey ("Encrypting")).extractable
        keyUsages := (rsaKey ("Encrypting")).keyUsages } :=
  generateKey_verbatim (rsaKey ("Encrypting"))

/-- C8: every dispatcher operation hands the engine the normalized payload:
the UTF-8 encoding for a string payload, the binary buffer unchanged. -/
theorem dispatch_payload_normalized (d : Payload) (k : CryptoKey)
    (o : Option EncryptAlgoOptions) (os : Option SignAlgoOptions)
    (sg : List Nat) :
    (∀ c, encrypt d k o = Except.ok c → c.data = normalizePayload d) ∧
    (∀ c, decrypt d k o = Except.ok c → c.data = normalizePayload d) ∧
    (∀ c, sign d k os = Except.ok c → c.data = normalizePayload d) ∧
    (∀ c, verify d k sg os = Except.ok c → c.data = normalizePayload d) ∧
    (∀ s, normalizePayload (.str s) = textEncode s) ∧
    (∀ b, normalizePayload (.buf b) = b) :=
  ⟨fun c hc => congrArg SubtleCall.data
      ((dispatch_shape _ _ _ _ _ (encrypt_shape d k o) (by decide)).2.2.2 c hc),
   fun c hc => congrArg SubtleCall.data
      ((dispatch_shape _ _ _ _ _ (decrypt_shape d k o) (by decide)).2.2.2 c hc),
   fun c hc => congrArg SubtleCall.data
      ((dispatch_shape _ _ _ _ _ (sign_shape d k os) (by decide)).2.2.2 c hc),
   fun c hc => congrArg VerifyCall.data
      ((dispatch_shape _ _ _ _ _ (verify_shape d k sg os) (by decide)).2.2.2 c hc),
   fun _ => rfl,
   fun _ => rfl⟩

/-- C8 witness: encrypting the string payload `"Hi"` hands the engine its
UTF-8 bytes `[72, 105]`. -/
theorem dispatch_payload_normalized_witness :
    ({ algorithm := mergeEncryptOptions gcmSampleKey.algorithm none
       key := gcmSampleKey
       data := normalizePayload (.str ("Hi")) } : SubtleCall).data =
        normalizePayload (.str ("Hi")) ∧
    textEncode ("Hi") = [72, 105] :=
  ⟨(dispatch_payload_normalized (.str ("Hi")) gcmSampleKey none none
      []).1 _ (by decide),
   by decide⟩

/-- C9: the merged algorithm descriptor each dispatcher hands to the engine
keeps the key's own algorithm name; caller options can only change tunable
parameters. -/
theorem dispatch_merge_preserves_name (d : Payload) (k : CryptoKey)
    (o : Option EncryptAlgoOptions) (os : Option SignAlgoOptions)
    (sg : List Nat) :
    (∀ c, encrypt d k o = Except.ok c →
      c.algorithm.name = k.algorithm.name) ∧
    (∀ c, decrypt d k o = Except.ok c →
      c.algorithm.name = k.algorithm.name) ∧
    (∀ c, sign d k os = Except.ok c →
      c.algorithm.name = k.algorithm.name) ∧
    (∀ c, verify d k sg os = Except.ok c →
      c.algorithm.name = k.algorithm.name) ∧
    (∀ a : Algorithm, (mergeEncryptOptions a o).name = a.name) ∧
    (∀ a : Algorithm, (mergeSignOptions a os).name = a.name) := by
  refine ⟨fun c hc => ?_, fun c hc => ?_, fun c hc => ?_, fun c hc => ?_,
    fun a => mergeEncryptOptions_name a o, fun a => mergeSignOptions_name a os⟩
  · rw [(dispatch_shape _ _ _ _ _ (encrypt_shape d k o) (by decide)).2.2.2 c hc]
    exact mergeEncryptOptions_name _ _
  · rw [(dispatch_shape _ _ _ _ _ (decrypt_shape d k o) (by decide)).2.2.2 c hc]
    exact mergeEncryptOptions_name _ _
  · rw [(dispatch_shape _ _ _ _ _ (sign_shape d k os) (by decide)).2.2.2 c hc]
    exact mergeSignOptions_name _ _
  · rw [(dispatch_shape _ _ _ _ _ (verify_shape d k sg os) (by decide)).2.2.2 c hc]
    exact mergeSignOptions_name _ _

/-- C9 witness: encrypting with an AES-GCM key and an `iv` option yields an
engine call whose algorithm name is still the key's `AES-GCM`. -/
theorem dispatch_merge_preserves_name_witness :
    ({ algorithm := mergeEncryptOptions gcmSampleKey.algorithm
         (some { iv := some [1, 2, 3] })
       key := gcmSampleKey
       data := [7] } : SubtleCall).algorithm.name =
      gcmSampleKey.algorithm.name :=
  (dispatch_merge_preserves_name (.buf [7]) gcmSampleKey
      (some { iv := some [1, 2, 3] }) none []).1 _ (by decide)

/-- C10: `importKey` accepts the third role value `secret` and applies no
usage filtering for it: the profile's requested usage list reaches the
engine unchanged. -/
theorem importKey_secret_role_unfiltered (format : String) (m : KeyMaterial)
    (opts : KeyGenParams) (e : Option Bool) :
    (importKey format ("secret") m opts e).keyUsages = opts.keyUsages :=
  List.filter_eq_self.mpr (fun _ _ => rfl)

/-- C10 witness: a secret-role import keeps sign and decrypt together with
verify and encrypt. -/
theorem importKey_secret_role_unfiltered_witness :
    (importKey ("raw") ("secret") (.buf [])
        { algorithm := { name := "HMAC" }, extractable := true
          keyUsages := [.sign, .verify, .encrypt, .decrypt] } none).keyUsages =
      [.sign, .verify, .encrypt, .decrypt] :=
  importKey_secret_role_unfiltered ("raw") (.buf [])
    { algorithm := { name := "HMAC" }, extractable := true
      keyUsages := [.sign, .verify, .encrypt, .decrypt] } none

end Enc
